import Mathlib

/-!
Shallow embedding of the image-search pipeline of the `imagefinder` Django
application: `PexelsImage.search` from `imagefinderapp/models.py` and the
`search` view from `imagefinderapp/views.py`, together with the pieces of
the Python runtime and the `requests` library that those functions rely on
(dict subscripting, f-string formatting of `None`, and
`Response.raise_for_status`).

Networking is made explicit: the functions receive the `HttpResponse` the
remote API would answer with, and return the trace of observable side
effects (outbound HTTP requests and database writes) next to the Python
outcome (a normal return value or an uncaught exception).
-/

set_option autoImplicit false

/-- JSON values, as produced by `response.json()`.  Objects are association
lists; since they come from parsing a JSON document into a Python dict,
keys are pairwise distinct, and first-match lookup agrees with dict
lookup. -/
inductive Json where
  | null : Json
  | str (s : String) : Json
  | num (n : Int) : Json
  | boolean (b : Bool) : Json
  | obj (fields : List (String × Json)) : Json
  | arr (elems : List Json) : Json

/-- Uncaught Python exceptions that can escape the code under study. -/
inductive PyError where
  | httpError (status : Nat)
  | keyError (key : String)
  | typeError
  | unboundLocalError (name : String)
deriving DecidableEq

/-- First-match lookup in an association list (dict lookup, given that the
keys of a parsed JSON object are pairwise distinct). -/
def assocFind (key : String) : List (String × Json) → Option Json
  | [] => none
  | (k, v) :: rest => if k = key then some v else assocFind key rest

/-- Python subscripting `value[key]` with a string key: succeeds on a dict
containing the key, raises `KeyError` on a dict without it, and raises
`TypeError` on any non-dict value (`None`, numbers, lists and strings all
reject a string subscript). -/
def pySubscript : Json → String → Except PyError Json
  | .obj fields, key =>
    match assocFind key fields with
    | some v => .ok v
    | none => .error (.keyError key)
  | .null, _ => .error .typeError
  | .str _, _ => .error .typeError
  | .num _, _ => .error .typeError
  | .boolean _, _ => .error .typeError
  | .arr _, _ => .error .typeError

/-- Python f-string interpolation of an `os.environ.get` result: a present
value prints as itself, an absent one (`None`) prints as the placeholder
string `None`. -/
def pyFormat : Option String → String
  | some s => s
  | none => "None"

/-- Iterating `for photo in photos`, following Python iteration: a JSON
array yields its elements in order; a dict yields its keys, as strings; a
string yields its characters, as one-character strings (so an empty dict
or empty string iterates zero times and the comprehension yields an empty
list); `None`, numbers and booleans are not iterable and raise
`TypeError`. -/
def iterList : Json → Except PyError (List Json)
  | .arr elems => .ok elems
  | .obj fields => .ok (fields.map (fun kv => .str kv.1))
  | .str s => .ok (s.data.map (fun c => .str (Char.toString c)))
  | .null => .error .typeError
  | .num _ => .error .typeError
  | .boolean _ => .error .typeError

/-- The process environment, as read by `os.environ.get`. -/
abbrev Environ := String → Option String

/-- An outbound HTTP request as built by `requests.get(url, headers=headers)`. -/
structure HttpRequest where
  method : String
  url : String
  headers : List (String × String)
deriving DecidableEq

/-- The answer of the remote API: a status code and a JSON body (responses whose
body is not valid JSON are outside the behaviours the theorems quantify
over). -/
structure HttpResponse where
  status : Nat
  body : Json

/-- The requests library method `raise_for_status`: raises `HTTPError`
exactly when
the status code is in 400..599; informational, success and redirection
statuses pass through without an exception. -/
def raise_for_status (status : Nat) : Except PyError Unit :=
  if 400 ≤ status ∧ status < 600 then .error (.httpError status) else .ok ()

/-- A transient `PexelsImage` record: the three fields set by the list
comprehension in `PexelsImage.search`.  Field values are kept as JSON
values, as Python performs no type enforcement when constructing the
model instance. -/
structure PexelsImage where
  url : Json
  previewURL : Json
  photographer : Json

/-- Observable side effects of the code under study: outbound HTTP
requests (`requests.get`) and database writes (Django `save` /
`objects.create`, which never occur in the source). -/
inductive Effect where
  | httpGet (req : HttpRequest)
  | dbWrite (table : String)

/-- Whether an effect writes to the database. -/
def Effect.isDbWrite : Effect → Bool
  | .dbWrite _ => true
  | _ => false

/-- Whether an uncaught exception is a parse-type failure (a `KeyError` or
`TypeError` arising from the response body not having the expected
shape), as opposed to an `HTTPError`. -/
def PyError.isParseError : PyError → Bool
  | .keyError _ => true
  | .typeError => true
  | _ => false

/-- The body of the list comprehension in `PexelsImage.search`:
`PexelsImage(url=..., previewURL=..., photographer=...)` over the
subscripts `url`, `src` then `tiny`, and `photographer`, following the
Python left-to-right
evaluation of the keyword arguments and the first raised exception
propagating. -/
def buildImage (photo : Json) : Except PyError PexelsImage :=
  match pySubscript photo "url" with
  | .error e => .error e
  | .ok u =>
    match pySubscript photo "src" with
    | .error e => .error e
    | .ok src =>
      match pySubscript src "tiny" with
      | .error e => .error e
      | .ok tiny =>
        match pySubscript photo "photographer" with
        | .error e => .error e
        | .ok ph => .ok { url := u, previewURL := tiny, photographer := ph }

/-- A Python list comprehension over a list of JSON values: elements are
produced in order and the first raised exception aborts the whole
comprehension. -/
def listCompr (f : Json → Except PyError PexelsImage) :
    List Json → Except PyError (List PexelsImage)
  | [] => .ok []
  | p :: rest =>
    match f p with
    | .error e => .error e
    | .ok img =>
      match listCompr f rest with
      | .error e => .error e
      | .ok imgs => .ok (img :: imgs)

namespace PexelsImage

/-- Embedding of `PexelsImage.search` from `imagefinderapp/models.py`,
line by line:
read `PEXELS_API_KEY` from the environment, build the `Authorization`
header and the URL (the query string is embedded by f-string, unencoded),
issue one `requests.get`, `raise_for_status`, then map the `photos` field
through the list comprehension.  Returns the effect trace together with
the Python outcome. -/
def search (environ : Environ) (query : String) (response : HttpResponse) :
    List Effect × Except PyError (List PexelsImage) :=
  let pexels_api_key := environ "PEXELS_API_KEY"
  let headers := [("Authorization", pyFormat pexels_api_key)]
  let url := "https://api.pexels.com/v1/search?query=" ++ query
  let request : HttpRequest := { method := "GET", url := url, headers := headers }
  let outcome : Except PyError (List PexelsImage) :=
    match raise_for_status response.status with
    | .error e => .error e
    | .ok _ =>
      match pySubscript response.body "photos" with
      | .error e => .error e
      | .ok photos =>
        match iterList photos with
        | .error e => .error e
        | .ok elems => listCompr buildImage elems
  ([.httpGet request], outcome)

end PexelsImage

/-- What the `search` view hands to the template: either a rendered page
carrying the result list, or an uncaught exception surfacing to the
framework. -/
inductive ViewOutcome where
  | rendered (images : List PexelsImage)
  | uncaught (e : PyError)

/-- Modelled from the spec: `PexelsSearchForm` is defined in
`imagefinderapp/forms.py`, which is not among the sources; per the
specification it has a single required text field `query`, so a bound
form is valid exactly when the submitted `query` field is present and
non-empty. -/
def PexelsSearchForm_is_valid (formData : Option String) : Bool :=
  match formData with
  | some q => !(q == "")
  | none => false

/-- Modelled from the spec: `cleaned_data` at key `query` is the submitted
value of the `query` field (only read after validation succeeded). -/
def cleaned_data_query (formData : Option String) : String :=
  formData.getD ""

namespace Views

/-- The `search` view from `imagefinderapp/views.py`.  `formData` is the
POSTed `query` field (`none` when the field is absent).  On a POST whose
form is valid, the view calls `PexelsImage.search` and renders its
result; an exception from the client propagates.  On a POST whose form
is invalid the source assigns neither branch of `images`, so building
the render context raises `UnboundLocalError` for `images`.  On any
other method a fresh form and an empty `images` list are rendered. -/
def search (environ : Environ) (method : String) (formData : Option String)
    (response : HttpResponse) : List Effect × ViewOutcome :=
  if method = "POST" then
    if PexelsSearchForm_is_valid formData then
      match PexelsImage.search environ (cleaned_data_query formData) response with
      | (trace, .ok images) => (trace, .rendered images)
      | (trace, .error e) => (trace, .uncaught e)
    else
      ([], .uncaught (.unboundLocalError "images"))
  else
    ([], .rendered [])

end Views

/-- A sample well-formed photo object, in the response shape documented
for the Pexels API. -/
def samplePhoto : Json :=
  .obj [("url", .str "https://www.pexels.com/photo/1"),
        ("src", .obj [("tiny", .str "https://images.pexels.com/1-tiny.jpg")]),
        ("photographer", .str "Ann")]

/-- A sample environment carrying an API key. -/
def sampleEnviron : Environ :=
  fun k => if k = "PEXELS_API_KEY" then some "key123" else none

/-- An environment with no `PEXELS_API_KEY`. -/
def emptyEnviron : Environ := fun _ => none

/-- A sample successful response with one well-formed photo. -/
def sampleResponse : HttpResponse :=
  { status := 200, body := .obj [("photos", .arr [samplePhoto])] }

/-- A sample successful response whose body is missing `photos`. -/
def noPhotosResponse : HttpResponse :=
  { status := 200, body := .obj [("page", .num 1)] }
/-- A redirection-style response: status 304, with a parseable body. -/
def redirectResponse : HttpResponse :=
  { status := 304, body := .obj [("photos", .arr [])] }

/-- A client-error response. -/
def errorResponse404 : HttpResponse :=
  { status := 404, body := .null }

/-- The record `search` builds from `samplePhoto`. -/
def sampleImage : PexelsImage :=
  { url := .str "https://www.pexels.com/photo/1",
    previewURL := .str "https://images.pexels.com/1-tiny.jpg",
    photographer := .str "Ann" }

/-- A second sample environment, agreeing with `sampleEnviron` on
`PEXELS_API_KEY` but differing elsewhere. -/
def sampleEnvironB : Environ :=
  fun k => if k = "PEXELS_API_KEY" then some "key123" else some "unrelated"

/-- The exact request `PexelsImage.search` builds: a GET to the fixed
endpoint, the query appended to the URL unmodified, and the
`Authorization` header holding the formatted environment value. -/
def pexelsRequest (environ : Environ) (query : String) : HttpRequest :=
  { method := "GET",
    url := "https://api.pexels.com/v1/search?query=" ++ query,
    headers := [("Authorization", pyFormat (environ "PEXELS_API_KEY"))] }

/-! ## Helper lemmas -/

theorem pySubscript_error_isParseError {v : Json} {key : String} {e : PyError}
    (h : pySubscript v key = .error e) : e.isParseError = true := by
  cases v with
  | null => injection h with h; subst h; rfl
  | str s => injection h with h; subst h; rfl
  | num n => injection h with h; subst h; rfl
  | boolean b => injection h with h; subst h; rfl
  | arr elems => injection h with h; subst h; rfl
  | obj fields =>
    simp only [pySubscript] at h
    cases hfind : assocFind key fields with
    | some w => simp only [hfind] at h; exact Except.noConfusion h
    | none => simp only [hfind] at h; injection h with h; subst h; rfl

theorem buildImage_error_isParseError {p : Json} {e : PyError}
    (h : buildImage p = .error e) : e.isParseError = true := by
  unfold buildImage at h
  cases hu : pySubscript p "url" with
  | error e2 =>
    simp only [hu] at h; injection h with h; subst h
    exact pySubscript_error_isParseError hu
  | ok u =>
    simp only [hu] at h
    cases hs : pySubscript p "src" with
    | error e2 =>
      simp only [hs] at h; injection h with h; subst h
      exact pySubscript_error_isParseError hs
    | ok src =>
      simp only [hs] at h
      cases ht : pySubscript src "tiny" with
      | error e2 =>
        simp only [ht] at h; injection h with h; subst h
        exact pySubscript_error_isParseError ht
      | ok tiny =>
        simp only [ht] at h
        cases hph : pySubscript p "photographer" with
        | error e2 =>
          simp only [hph] at h; injection h with h; subst h
          exact pySubscript_error_isParseError hph
        | ok ph => simp only [hph] at h; exact Except.noConfusion h

theorem buildImage_ok_iff (p : Json) (img : PexelsImage) :
    buildImage p = .ok img ↔
      (pySubscript p "url" = .ok img.url ∧
        (∃ s, pySubscript p "src" = .ok s ∧
          pySubscript s "tiny" = .ok img.previewURL) ∧
        pySubscript p "photographer" = .ok img.photographer) := by
  unfold buildImage
  constructor
  · intro h
    cases hu : pySubscript p "url" with
    | error e => simp only [hu] at h; exact Except.noConfusion h
    | ok u =>
      simp only [hu] at h
      cases hs : pySubscript p "src" with
      | error e => simp only [hs] at h; exact Except.noConfusion h
      | ok src =>
        simp only [hs] at h
        cases ht : pySubscript src "tiny" with
        | error e => simp only [ht] at h; exact Except.noConfusion h
        | ok tiny =>
          simp only [ht] at h
          cases hph : pySubscript p "photographer" with
          | error e => simp only [hph] at h; exact Except.noConfusion h
          | ok ph =>
            simp only [hph] at h
            injection h with h
            subst h
            exact ⟨rfl, ⟨src, rfl, ht⟩, rfl⟩
  · rintro ⟨hu, ⟨s, hs, ht⟩, hph⟩
    simp only [hu, hs, ht, hph]

theorem listCompr_ok_of_forall {f : Json → Except PyError PexelsImage} :
    ∀ {l : List Json}, (∀ p ∈ l, ∃ img, f p = .ok img) →
      ∃ imgs, listCompr f l = .ok imgs ∧ imgs.length = l.length ∧
        ∀ i, (hl : i < l.length) → (hi : i < imgs.length) →
          f (l.get ⟨i, hl⟩) = .ok (imgs.get ⟨i, hi⟩)
  | [], _ => ⟨[], rfl, rfl, fun i hl => absurd hl (Nat.not_lt_zero i)⟩
  | p :: rest, h => by
    obtain ⟨img, himg⟩ := h p (List.mem_cons_self p rest)
    obtain ⟨imgs, hmap, hlen, hpt⟩ :=
      listCompr_ok_of_forall (fun q hq => h q (List.mem_cons_of_mem p hq))
    refine ⟨img :: imgs, ?_, by simp [hlen], ?_⟩
    · simp [listCompr, himg, hmap]
    · intro i hl hi
      cases i with
      | zero => exact himg
      | succ j => exact hpt j (Nat.lt_of_succ_lt_succ hl) (Nat.lt_of_succ_lt_succ hi)

theorem listCompr_ok_elim {f : Json → Except PyError PexelsImage} :
    ∀ {l : List Json} {imgs : List PexelsImage}, listCompr f l = .ok imgs →
      imgs.length = l.length ∧
        ∀ i, (hl : i < l.length) → (hi : i < imgs.length) →
          f (l.get ⟨i, hl⟩) = .ok (imgs.get ⟨i, hi⟩)
  | [], imgs, h => by
    simp only [listCompr] at h
    injection h with h
    subst h
    exact ⟨rfl, fun i hl hi => absurd hl (Nat.not_lt_zero i)⟩
  | p :: rest, imgs, h => by
    simp only [listCompr] at h
    cases hfp : f p with
    | error e => simp only [hfp] at h; exact Except.noConfusion h
    | ok img =>
      simp only [hfp] at h
      cases hrest : listCompr f rest with
      | error e => simp only [hrest] at h; exact Except.noConfusion h
      | ok tailImgs =>
        simp only [hrest] at h
        injection h with h
        subst h
        obtain ⟨hlen, hpt⟩ := listCompr_ok_elim hrest
        refine ⟨by simp [hlen], ?_⟩
        intro i hl hi
        cases i with
        | zero => exact hfp
        | succ j => exact hpt j (Nat.lt_of_succ_lt_succ hl) (Nat.lt_of_succ_lt_succ hi)

theorem listCompr_error_of_mem {f : Json → Except PyError PexelsImage} :
    ∀ {l : List Json} {p : Json}, p ∈ l → (∃ e0, f p = .error e0) →
      ∃ e q, q ∈ l ∧ f q = .error e ∧ listCompr f l = .error e
  | [], p, hp, _ => absurd hp (List.not_mem_nil p)
  | q :: rest, p, hp, hfail => by
    cases hfq : f q with
    | error e =>
      exact ⟨e, q, List.mem_cons_self q rest, hfq, by simp [listCompr, hfq]⟩
    | ok img =>
      have hpr : p ∈ rest := by
        cases List.mem_cons.mp hp with
        | inl hpq =>
          subst hpq
          obtain ⟨e0, he0⟩ := hfail
          rw [he0] at hfq
          exact Except.noConfusion hfq
        | inr hr => exact hr
      obtain ⟨e, r, hr, hfr, hrest⟩ := listCompr_error_of_mem hpr hfail
      exact ⟨e, r, List.mem_cons_of_mem q hr, hfr, by simp [listCompr, hfq, hrest]⟩

theorem raise_for_status_ok {status : Nat} (h : status < 400) :
    raise_for_status status = .ok () := by
  unfold raise_for_status
  exact if_neg (fun hc => absurd hc.1 (Nat.not_le.mpr h))

theorem raise_for_status_error {status : Nat} (h4 : 400 ≤ status)
    (h6 : status < 600) :
    raise_for_status status = .error (.httpError status) := by
  unfold raise_for_status
  exact if_pos ⟨h4, h6⟩

theorem search_unfold (environ : Environ) (query : String)
    (response : HttpResponse) :
    PexelsImage.search environ query response =
      ([Effect.httpGet (pexelsRequest environ query)],
        match raise_for_status response.status with
        | .error e => .error e
        | .ok _ =>
          match pySubscript response.body "photos" with
          | .error e => .error e
          | .ok photos =>
            match iterList photos with
            | .error e => .error e
            | .ok elems => listCompr buildImage elems) := rfl

/-! ## Claims -/

/-- Claim C1: for every 2xx response whose JSON body has a top-level `photos`
field holding N well-formed photo objects (N = 0 included),
`PexelsImage.search` returns exactly N records, in the same order as the
input sequence, each mapping the field `url` of the photo to `url`
(sourceURL), `src.tiny` to `previewURL` and `photographer` to
`photographer`; no entry is deduplicated, filtered or skipped, and an
empty `photos` sequence yields the empty list rather than an error. -/
theorem C1_search_maps_photos_in_order (environ : Environ) (query : String)
    (response : HttpResponse) (l : List Json)
    (hstatus : 200 ≤ response.status ∧ response.status < 300)
    (hphotos : pySubscript response.body "photos" = .ok (.arr l))
    (hwf : ∀ p ∈ l, ∃ u s t ph, pySubscript p "url" = .ok u ∧
      pySubscript p "src" = .ok s ∧ pySubscript s "tiny" = .ok t ∧
      pySubscript p "photographer" = .ok ph) :
    ∃ imgs, (PexelsImage.search environ query response).2 = .ok imgs ∧
      imgs.length = l.length ∧
      ∀ i, (hl : i < l.length) → (hi : i < imgs.length) →
        pySubscript (l.get ⟨i, hl⟩) "url" = .ok (imgs.get ⟨i, hi⟩).url ∧
        (∃ s, pySubscript (l.get ⟨i, hl⟩) "src" = .ok s ∧
          pySubscript s "tiny" = .ok (imgs.get ⟨i, hi⟩).previewURL) ∧
        pySubscript (l.get ⟨i, hl⟩) "photographer" =
          .ok (imgs.get ⟨i, hi⟩).photographer := by
  have hok : ∀ p ∈ l, ∃ img, buildImage p = .ok img := by
    intro p hp
    obtain ⟨u, s, t, ph, hu, hs, ht, hph⟩ := hwf p hp
    exact ⟨{ url := u, previewURL := t, photographer := ph },
      (buildImage_ok_iff p _).mpr ⟨hu, ⟨s, hs, ht⟩, hph⟩⟩
  obtain ⟨imgs, hmap, hlen, hpt⟩ := listCompr_ok_of_forall hok
  have h400 : response.status < 400 :=
    lt_of_lt_of_le hstatus.2 (by norm_num)
  refine ⟨imgs, ?_, hlen, ?_⟩
  · rw [search_unfold]
    simp only [raise_for_status_ok h400, hphotos, iterList, hmap]
  · intro i hl hi
    exact (buildImage_ok_iff _ _).mp (hpt i hl hi)

/-- Witness for C1: a concrete 200 response with a single photo. -/
theorem C1_search_maps_photos_in_order_witness :
    ∃ imgs, (PexelsImage.search sampleEnviron "cats" sampleResponse).2 =
        .ok imgs ∧
      imgs.length = [samplePhoto].length ∧
      ∀ i, (hl : i < [samplePhoto].length) → (hi : i < imgs.length) →
        pySubscript ([samplePhoto].get ⟨i, hl⟩) "url" =
          .ok (imgs.get ⟨i, hi⟩).url ∧
        (∃ s, pySubscript ([samplePhoto].get ⟨i, hl⟩) "src" = .ok s ∧
          pySubscript s "tiny" = .ok (imgs.get ⟨i, hi⟩).previewURL) ∧
        pySubscript ([samplePhoto].get ⟨i, hl⟩) "photographer" =
          .ok (imgs.get ⟨i, hi⟩).photographer :=
  C1_search_maps_photos_in_order sampleEnviron "cats" sampleResponse
    [samplePhoto] (by decide) rfl
    (by
      intro p hp
      rw [List.mem_singleton] at hp
      subst hp
      exact ⟨.str "https://www.pexels.com/photo/1",
        .obj [("tiny", .str "https://images.pexels.com/1-tiny.jpg")],
        .str "https://images.pexels.com/1-tiny.jpg", .str "Ann",
        rfl, rfl, rfl, rfl⟩)

/-- Counterexample to claim C3 as stated: status 304 is not 2xx, yet `search` raises no
`HTTPError` — `raise_for_status` only raises for statuses 400..599 — and
on this response the body is parsed and an empty result list is
returned instead of a failure. -/
theorem C3_counterexample_status_304 :
    300 ≤ redirectResponse.status ∧
    (PexelsImage.search sampleEnviron "cats" redirectResponse).2 = .ok [] :=
  ⟨by decide, rfl⟩

/-- Claim C3 (amended): for every response whose status code is in 400..599,
`search` fails with an `HTTPError` carrying that status code — for every
body, so the body is never parsed on this path and no partial results
are returned — and the effect trace still holds exactly the one request
(no retry). -/
theorem C3_http_error_on_4xx_5xx (environ : Environ) (query : String)
    (response : HttpResponse) (h4 : 400 ≤ response.status)
    (h6 : response.status < 600) :
    (PexelsImage.search environ query response).2 =
      .error (.httpError response.status) ∧
    (PexelsImage.search environ query response).1 =
      [Effect.httpGet (pexelsRequest environ query)] := by
  rw [search_unfold]
  exact ⟨by simp only [raise_for_status_error h4 h6], rfl⟩

/-- Witness for amended C3: a concrete 404 response. -/
theorem C3_http_error_on_4xx_5xx_witness :
    (PexelsImage.search sampleEnviron "cats" errorResponse404).2 =
      .error (.httpError errorResponse404.status) ∧
    (PexelsImage.search sampleEnviron "cats" errorResponse404).1 =
      [Effect.httpGet (pexelsRequest sampleEnviron "cats")] :=
  C3_http_error_on_4xx_5xx sampleEnviron "cats" errorResponse404
    (by decide) (by decide)

/-- Claim C6: for every non-empty query string, `search` issues exactly one
outbound request — a GET to the fixed endpoint
`https://api.pexels.com/v1/search` — and the query string is embedded in
the URL after `?query=` unmodified. -/
theorem C6_single_unmodified_request (environ : Environ) (query : String)
    (response : HttpResponse) (hq : query ≠ "") :
    (PexelsImage.search environ query response).1 =
      [Effect.httpGet { method := "GET",
                        url := "https://api.pexels.com/v1/search?query=" ++
                          query,
                        headers := [("Authorization",
                          pyFormat (environ "PEXELS_API_KEY"))] }] := rfl

/-- Witness for C6: the concrete query `cats`. -/
theorem C6_single_unmodified_request_witness :
    "cats" ≠ "" ∧
    (PexelsImage.search sampleEnviron "cats" sampleResponse).1 =
      [Effect.httpGet { method := "GET",
                        url := "https://api.pexels.com/v1/search?query=" ++
                          "cats",
                        headers := [("Authorization",
                          pyFormat (sampleEnviron "PEXELS_API_KEY"))] }] :=
  ⟨by decide,
    C6_single_unmodified_request sampleEnviron "cats" sampleResponse
      (by decide)⟩

/-- Claim C7: on every call the `Authorization` header of the one issued request
is the f-string image of the `PEXELS_API_KEY` value read from the
environment passed to that very call (nothing cached: the header is a
function of the environment of that call); with an environment lacking the
variable the header is still sent, carrying the placeholder `None`. -/
theorem C7_auth_header_read_per_call (environ : Environ) (query : String)
    (response : HttpResponse) :
    (PexelsImage.search environ query response).1 =
      [Effect.httpGet { method := "GET",
                        url := "https://api.pexels.com/v1/search?query=" ++
                          query,
                        headers := [("Authorization",
                          pyFormat (environ "PEXELS_API_KEY"))] }] ∧
    pyFormat none = "None" ∧
    (PexelsImage.search emptyEnviron query response).1 =
      [Effect.httpGet { method := "GET",
                        url := "https://api.pexels.com/v1/search?query=" ++
                          query,
                        headers := [("Authorization", "None")] }] :=
  ⟨rfl, rfl, rfl⟩

/-- Claim C10: `search` is deterministic — two calls agreeing on the
`PEXELS_API_KEY` value, the query string and the response (status and
body) produce the same request trace and the same outcome, be it a
result list or an error. -/
theorem C10_search_deterministic (env1 env2 : Environ) (q1 q2 : String)
    (r1 r2 : HttpResponse)
    (henv : env1 "PEXELS_API_KEY" = env2 "PEXELS_API_KEY")
    (hq : q1 = q2) (hr : r1 = r2) :
    PexelsImage.search env1 q1 r1 = PexelsImage.search env2 q2 r2 := by
  subst hq
  subst hr
  rw [search_unfold, search_unfold]
  simp only [pexelsRequest, henv]

/-- Witness for C10: two environments agreeing on the key but differing on
every other variable. -/
theorem C10_search_deterministic_witness :
    PexelsImage.search sampleEnviron "cats" sampleResponse =
      PexelsImage.search sampleEnvironB "cats" sampleResponse :=
  C10_search_deterministic sampleEnviron sampleEnvironB "cats" "cats"
    sampleResponse sampleResponse (by decide) rfl rfl

/-! ## Further helper lemmas -/

theorem buildImage_error_of_bad {p : Json}
    (hbad : (∃ e0, pySubscript p "url" = .error e0) ∨
      (∃ e0, pySubscript p "src" = .error e0) ∨
      (∃ s e0, pySubscript p "src" = .ok s ∧
        pySubscript s "tiny" = .error e0) ∨
      (∃ e0, pySubscript p "photographer" = .error e0)) :
    ∃ e, buildImage p = .error e := by
  cases hu : pySubscript p "url" with
  | error e1 => exact ⟨e1, by simp only [buildImage, hu]⟩
  | ok u =>
    cases hs : pySubscript p "src" with
    | error e1 => exact ⟨e1, by simp only [buildImage, hu, hs]⟩
    | ok src =>
      cases ht : pySubscript src "tiny" with
      | error e1 => exact ⟨e1, by simp only [buildImage, hu, hs, ht]⟩
      | ok tiny =>
        cases hph : pySubscript p "photographer" with
        | error e1 =>
          exact ⟨e1, by simp only [buildImage, hu, hs, ht, hph]⟩
        | ok ph =>
          rcases hbad with ⟨e0, hb⟩ | ⟨e0, hb⟩ | ⟨s, e0, hs2, hb⟩ | ⟨e0, hb⟩
          · rw [hu] at hb; exact Except.noConfusion hb
          · rw [hs] at hb; exact Except.noConfusion hb
          · rw [hs2] at hs
            injection hs with hse
            subst hse
            rw [ht] at hb
            exact Except.noConfusion hb
          · rw [hph] at hb; exact Except.noConfusion hb

theorem views_post_valid_trace (environ : Environ) (formData : Option String)
    (response : HttpResponse)
    (hv : PexelsSearchForm_is_valid formData = true) :
    (Views.search environ "POST" formData response).1 =
      (PexelsImage.search environ (cleaned_data_query formData) response).1 := by
  unfold Views.search
  rw [if_pos rfl, if_pos hv]
  cases hsearch : PexelsImage.search environ (cleaned_data_query formData)
      response with
  | mk trace outcome =>
    cases outcome with
    | ok images => rfl
    | error e => rfl

/-- Claim C2 fails on the code at this input: a POST whose `query` field
is invalid (present but
empty, or absent).  No outbound request is made (empty trace), but the
view does not return an empty result list: on this path the source never
assigns `images`, so building the render context raises
`UnboundLocalError` for the name `images`. -/
theorem C2_invalid_post_raises_unbound_local :
    Views.search sampleEnviron "POST" (some "") sampleResponse =
      ([], .uncaught (.unboundLocalError "images")) ∧
    Views.search sampleEnviron "POST" none sampleResponse =
      ([], .uncaught (.unboundLocalError "images")) :=
  ⟨rfl, rfl⟩

/-- Claim C4: for every 2xx response whose JSON body either has no top-level
`photos` field or whose `photos` list contains a photo object missing one
of the fields `url`, `src`, `src.tiny` or `photographer`, `search` fails
with an uncaught parse-type error (`KeyError`/`TypeError`, never an
`HTTPError`); malformed entries are not silently skipped and no partial
result list is returned. -/
theorem C4_malformed_response_parse_error (environ : Environ) (query : String)
    (response : HttpResponse)
    (hstatus : 200 ≤ response.status ∧ response.status < 300)
    (hmal : (∃ e0, pySubscript response.body "photos" = .error e0) ∨
      (∃ l p, pySubscript response.body "photos" = .ok (.arr l) ∧ p ∈ l ∧
        ((∃ e0, pySubscript p "url" = .error e0) ∨
         (∃ e0, pySubscript p "src" = .error e0) ∨
         (∃ s e0, pySubscript p "src" = .ok s ∧
           pySubscript s "tiny" = .error e0) ∨
         (∃ e0, pySubscript p "photographer" = .error e0)))) :
    ∃ e, (PexelsImage.search environ query response).2 = .error e ∧
      e.isParseError = true := by
  have h400 : response.status < 400 :=
    lt_of_lt_of_le hstatus.2 (by norm_num)
  rcases hmal with ⟨e0, he0⟩ | ⟨l, p, hl, hp, hbad⟩
  · refine ⟨e0, ?_, pySubscript_error_isParseError he0⟩
    rw [search_unfold]
    simp only [raise_for_status_ok h400, he0]
  · obtain ⟨e1, hfail⟩ := buildImage_error_of_bad hbad
    obtain ⟨e, q, hq, hfq, hlist⟩ := listCompr_error_of_mem hp ⟨e1, hfail⟩
    refine ⟨e, ?_, buildImage_error_isParseError hfq⟩
    rw [search_unfold]
    simp only [raise_for_status_ok h400, hl, iterList, hlist]

/-- Witness for C4: a 200 response whose body has no `photos` field. -/
theorem C4_malformed_response_parse_error_witness :
    ∃ e, (PexelsImage.search sampleEnviron "cats" noPhotosResponse).2 =
      .error e ∧ e.isParseError = true :=
  C4_malformed_response_parse_error sampleEnviron "cats" noPhotosResponse
    (by decide) (Or.inl ⟨.keyError "photos", rfl⟩)

/-- Claim C5: for every non-POST (plain GET) request, the view renders an empty
result list without validating anything and without any outbound call
(its effect trace is empty), whatever the form data, the environment and
the network would have answered. -/
theorem C5_get_renders_empty (environ : Environ) (method : String)
    (formData : Option String) (response : HttpResponse)
    (hm : method ≠ "POST") :
    Views.search environ method formData response = ([], .rendered []) := by
  unfold Views.search
  rw [if_neg hm]

/-- Witness for C5: a GET request with a filled-in query field. -/
theorem C5_get_renders_empty_witness :
    Views.search sampleEnviron "GET" (some "cats") sampleResponse =
      ([], .rendered []) :=
  C5_get_renders_empty sampleEnviron "GET" (some "cats") sampleResponse
    (by decide)

/-- Claim C8: whenever `search` returns a result list, each of its records
has all three fields (`url`/sourceURL, `previewURL`, `photographer`)
populated together from one and the same photo object of the iterated
`photos` sequence of the response — the i-th record from the i-th photo;
no record is ever in a partial state.  (When `photos` iterates zero
times, as for an empty list, empty dict or empty string, the returned
list is empty and the statement is vacuous; a non-empty iteration can
only succeed when every iterated element is a photo object carrying all
three fields.) -/
theorem C8_records_from_single_photo (environ : Environ) (query : String)
    (response : HttpResponse) (imgs : List PexelsImage)
    (h : (PexelsImage.search environ query response).2 = .ok imgs) :
    ∃ photos elems, pySubscript response.body "photos" = .ok photos ∧
      iterList photos = .ok elems ∧
      imgs.length = elems.length ∧
      ∀ i, (hi : i < imgs.length) → (hl : i < elems.length) →
        pySubscript (elems.get ⟨i, hl⟩) "url" = .ok (imgs.get ⟨i, hi⟩).url ∧
        (∃ s, pySubscript (elems.get ⟨i, hl⟩) "src" = .ok s ∧
          pySubscript s "tiny" = .ok (imgs.get ⟨i, hi⟩).previewURL) ∧
        pySubscript (elems.get ⟨i, hl⟩) "photographer" =
          .ok (imgs.get ⟨i, hi⟩).photographer := by
  rw [search_unfold] at h
  cases hrs : raise_for_status response.status with
  | error e => simp only [hrs] at h; exact Except.noConfusion h
  | ok u =>
    simp only [hrs] at h
    cases hph : pySubscript response.body "photos" with
    | error e => simp only [hph] at h; exact Except.noConfusion h
    | ok photos =>
      simp only [hph] at h
      cases hit : iterList photos with
      | error e => simp only [hit] at h; exact Except.noConfusion h
      | ok elems =>
        simp only [hit] at h
        obtain ⟨hlen, hpt⟩ := listCompr_ok_elim h
        refine ⟨photos, elems, rfl, hit, hlen, ?_⟩
        intro i hi hl
        exact (buildImage_ok_iff _ _).mp (hpt i hl hi)

/-- Witness for C8: the concrete one-photo response. -/
theorem C8_records_from_single_photo_witness :
    ∃ photos elems, pySubscript sampleResponse.body "photos" = .ok photos ∧
      iterList photos = .ok elems ∧
      ([sampleImage] : List PexelsImage).length = elems.length ∧
      ∀ i, (hi : i < ([sampleImage] : List PexelsImage).length) →
        (hl : i < elems.length) →
        pySubscript (elems.get ⟨i, hl⟩) "url" =
          .ok (([sampleImage] : List PexelsImage).get ⟨i, hi⟩).url ∧
        (∃ s, pySubscript (elems.get ⟨i, hl⟩) "src" = .ok s ∧
          pySubscript s "tiny" =
            .ok (([sampleImage] : List PexelsImage).get ⟨i, hi⟩).previewURL) ∧
        pySubscript (elems.get ⟨i, hl⟩) "photographer" =
          .ok (([sampleImage] : List PexelsImage).get ⟨i, hi⟩).photographer :=
  C8_records_from_single_photo sampleEnviron "cats" sampleResponse
    [sampleImage] rfl

/-- Claim C9: neither the view nor the search client ever writes to persistent
storage — their effect traces contain no database write, for every
method, form data, environment, query and response, i.e. on the success
path as well as on the invalid-form, `HTTPError` and parse-error
paths. -/
theorem C9_no_database_writes (environ : Environ) (method : String)
    (formData : Option String) (query : String) (response : HttpResponse) :
    (∀ eff ∈ (Views.search environ method formData response).1,
      eff.isDbWrite = false) ∧
    (∀ eff ∈ (PexelsImage.search environ query response).1,
      eff.isDbWrite = false) := by
  have hsearchTrace : ∀ (env2 : Environ) (q2 : String),
      ∀ eff ∈ (PexelsImage.search env2 q2 response).1,
        eff.isDbWrite = false := by
    intro env2 q2 eff heff
    rw [search_unfold] at heff
    simp only [List.mem_singleton] at heff
    subst heff
    rfl
  refine ⟨?_, hsearchTrace environ query⟩
  intro eff heff
  by_cases hm : method = "POST"
  · subst hm
    by_cases hv : PexelsSearchForm_is_valid formData = true
    · rw [views_post_valid_trace environ formData response hv] at heff
      exact hsearchTrace environ (cleaned_data_query formData) eff heff
    · have hview : Views.search environ "POST" formData response =
          ([], .uncaught (.unboundLocalError "images")) := by
        unfold Views.search
        rw [if_pos rfl, if_neg hv]
      rw [hview] at heff
      simp at heff
  · have hview : Views.search environ method formData response =
        ([], .rendered []) := by
      unfold Views.search
      rw [if_neg hm]
    rw [hview] at heff
    simp at heff
